import Mathlib

/-!
# Verification of the gnucash-sys binding boundary

The repository's visible source (`src/wrapper.h`) is a header aggregator for
an FFI binding layer over the GnuCash native library.  The safe-wrapper layer
itself (handle validation, lifetime tracking, marshaling) is declared by the
specification but its host-language implementation is not among the source
files, so those operations are modelled here from the specification's words
and the claims are settled against that model.  The header aggregator itself
is embedded verbatim for the structural claims about the source.
-/

set_option autoImplicit false

namespace GnucashSys

/-- Modelled from the spec: the error taxonomy of §7 of the specification
(`InvalidHandle`, `StaleHandle`, `InvalidNumeric`, `MalformedIdentifier`,
`NativeCallFailed`). -/
inductive WrapperError where
  | invalidHandle
  | staleHandle
  | invalidNumeric
  | malformedIdentifier
  | nativeCallFailed
  deriving DecidableEq, Repr

/-- Modelled from the spec: the native calls a wrapper operation may perform.
A `deref*` call reads through a native pointer; `numericCreate` is the native
rational constructor; `sessionTeardown` is the native release of a
Session/Book.  Wrapper operations return the list of native calls they
performed, so that "performs no native call" and "performs no dereference"
are provable statements about the model. -/
inductive NativeCall where
  | derefAccount
  | derefTransaction
  | derefSplit
  | numericCreate (num : Int) (den : Nat)
  | sessionTeardown
  deriving DecidableEq, Repr

/-- Modelled from the spec: the rational `Numeric` value type — numerator a
signed integer, denominator an unsigned integer (§3 data model). -/
structure GncNumeric where
  num : Int
  den : Nat
  deriving DecidableEq, Repr

/-- Modelled from the spec: marshaling a native numerator/denominator pair
into the host representation.  The spec requires that this "must not
normalize, round, or lose precision", so the pair is carried over verbatim. -/
def numericFromNative (p : Int × Nat) : GncNumeric :=
  { num := p.1, den := p.2 }

/-- Modelled from the spec: marshaling a host `GncNumeric` back to the native
numerator/denominator pair, again without normalization. -/
def numericToNative (x : GncNumeric) : Int × Nat :=
  (x.num, x.den)

/-- Modelled from the spec: the validating `Numeric` constructor of the safe
wrapper.  A zero denominator is an `InvalidNumeric` condition detected before
any native call; otherwise the native constructor is invoked.  The first
component is the trace of native calls performed. -/
def numericNew (n : Int) (d : Nat) : List NativeCall × Except WrapperError GncNumeric :=
  if d = 0 then
    ([], .error .invalidNumeric)
  else
    ([.numericCreate n d], .ok { num := n, den := d })

/-- Modelled from the spec: the canonical hexadecimal alphabet of the native
library's textual identifier form (lowercase hexadecimal digits). -/
def isCanonHexDigit (c : Char) : Bool :=
  ((48 ≤ c.toNat && c.toNat ≤ 57) || (97 ≤ c.toNat && c.toNat ≤ 102))

/-- Modelled from the spec: numeric value of a canonical hex digit. -/
def hexDigitVal (c : Char) : Nat :=
  if c.toNat ≤ 57 then c.toNat - 48 else c.toNat - 87

/-- Modelled from the spec: canonical hex digit character of a value below 16. -/
def hexDigitChar (n : Nat) : Char :=
  if n < 10 then Char.ofNat (n + 48) else Char.ofNat (n + 87)

/-- Modelled from the spec: the wrapper's `Identifier` value — a fixed-width
sequence of digit values obtained from the canonical 36-character textual
form; equality is byte-wise (derived structural equality on the digits). -/
structure Guid where
  digits : List Nat
  deriving DecidableEq, Repr

/-- Modelled from the spec: parsing the canonical textual identifier form.
A wrong length or any character outside the canonical hex alphabet is a
`MalformedIdentifier` failure; a well-formed text decodes to its digit
values. -/
def parseGuid (s : String) : Except WrapperError Guid :=
  if s.data.length = 36 && s.data.all isCanonHexDigit then
    .ok { digits := s.data.map hexDigitVal }
  else
    .error .malformedIdentifier

/-- Modelled from the spec: deterministic stringification of an identifier
back to the canonical textual form. -/
def guidToString (g : Guid) : String :=
  ⟨g.digits.map hexDigitChar⟩

theorem hexDigitChar_hexDigitVal {c : Char} (h : isCanonHexDigit c = true) :
    hexDigitChar (hexDigitVal c) = c := by
  unfold isCanonHexDigit at h
  simp only [Bool.or_eq_true, Bool.and_eq_true, decide_eq_true_eq] at h
  unfold hexDigitChar hexDigitVal
  rcases h with ⟨h0, h9⟩ | ⟨ha, hf⟩
  · have hlt : c.toNat - 48 < 10 := by omega
    have heq : c.toNat - 48 + 48 = c.toNat := by omega
    simp [h9, hlt, heq, Char.ofNat_toNat]
  · have hnle : ¬ c.toNat ≤ 57 := by omega
    have hnlt : ¬ c.toNat - 87 < 10 := by omega
    have heq : c.toNat - 87 + 87 = c.toNat := by omega
    simp [hnle, hnlt, heq, Char.ofNat_toNat]

/-- Modelled from the spec: a native Account node — name, balance, child
accounts (hierarchy of §3), keyed by an identifier. -/
inductive Acct : Type where
  | node (guid : Guid) (name : String) (balance : GncNumeric) (children : List Acct)

/-- The identifier of a native account node. -/
def Acct.guid : Acct → Guid
  | .node g _ _ _ => g

/-- The name of a native account node. -/
def Acct.name : Acct → String
  | .node _ n _ _ => n

/-- The balance of a native account node. -/
def Acct.balance : Acct → GncNumeric
  | .node _ _ b _ => b

/-- The child accounts of a native account node. -/
def Acct.children : Acct → List Acct
  | .node _ _ _ cs => cs

/-- Navigate from an account down a path of child indices (children-by-index
navigation of §6). -/
def Acct.resolve : Acct → List Nat → Option Acct
  | a, [] => some a
  | a, i :: p =>
    match (Acct.children a)[i]? with
    | some c => Acct.resolve c p
    | none => none

/-- Modelled from the spec: a native Split — amount and value, inside a
Transaction, keyed by an identifier. -/
structure NativeSplit where
  guid : Guid
  amount : GncNumeric
  value : GncNumeric

/-- Modelled from the spec: a native Transaction — date, description and the
Splits it owns. -/
structure NativeTxn where
  guid : Guid
  datePosted : Int
  description : String
  splits : List NativeSplit

/-- Modelled from the spec: a native Book — the top-level container owning
the root account and the transactions. -/
structure Book where
  root : Acct
  txns : List NativeTxn

/-- Modelled from the spec: an open native Session — the backing store it is
connected to and the Book it exclusively owns. -/
structure SessionNative where
  storeUri : String
  book : Book

/-- Modelled from the spec: the native world visible through the binding
boundary — the currently open sessions (keyed by wrapper session ids), the
existing backing stores, and a fresh-id counter. -/
structure World where
  sessions : List (Nat × SessionNative)
  stores : List String
  nextSid : Nat

/-- Look up an open session by wrapper session id. -/
def lookupSession (w : World) (sid : Nat) : Option SessionNative :=
  (w.sessions.find? (fun p => p.1 == sid)).map (fun p => p.2)

/-- Modelled from the spec: closing a Session tears down the native session
and its Book, so the session disappears from the set of open sessions. -/
def sessionClose (w : World) (sid : Nat) : World :=
  { w with sessions := w.sessions.filter (fun p => p.1 != sid) }

/-- Modelled from the spec: a wrapper handle to an Account — it records the
owning session and the path from the Book's root, and carries no copy of the
native data (non-owning view). -/
structure AccountHandle where
  sess : Nat
  path : List Nat

/-- Modelled from the spec: a wrapper handle to a Transaction. -/
structure TxnHandle where
  sess : Nat
  txIdx : Nat

/-- Modelled from the spec: a wrapper handle to a Split. -/
structure SplitHandle where
  sess : Nat
  txIdx : Nat
  spIdx : Nat

/-- Modelled from the spec: the liveness check every accessor performs before
dereferencing — if the owning Session is no longer open the accessor returns
`StaleHandle` having performed no native call. -/
def withSession {α : Type} (w : World) (sid : Nat)
    (k : SessionNative → List NativeCall × Except WrapperError α) :
    List NativeCall × Except WrapperError α :=
  match lookupSession w sid with
  | none => ([], .error .staleHandle)
  | some s => k s

/-- Modelled from the spec: the Account name accessor. -/
def accountName (w : World) (h : AccountHandle) :
    List NativeCall × Except WrapperError String :=
  withSession w h.sess fun s =>
    match s.book.root.resolve h.path with
    | none => ([], .error .invalidHandle)
    | some a => ([.derefAccount], .ok a.name)

/-- Modelled from the spec: the Account balance accessor. -/
def accountBalance (w : World) (h : AccountHandle) :
    List NativeCall × Except WrapperError GncNumeric :=
  withSession w h.sess fun s =>
    match s.book.root.resolve h.path with
    | none => ([], .error .invalidHandle)
    | some a => ([.derefAccount], .ok a.balance)

/-- Modelled from the spec: the Transaction date accessor. -/
def txnDatePosted (w : World) (h : TxnHandle) :
    List NativeCall × Except WrapperError Int :=
  withSession w h.sess fun s =>
    match s.book.txns[h.txIdx]? with
    | none => ([], .error .invalidHandle)
    | some t => ([.derefTransaction], .ok t.datePosted)

/-- Modelled from the spec: the Transaction description accessor. -/
def txnDescription (w : World) (h : TxnHandle) :
    List NativeCall × Except WrapperError String :=
  withSession w h.sess fun s =>
    match s.book.txns[h.txIdx]? with
    | none => ([], .error .invalidHandle)
    | some t => ([.derefTransaction], .ok t.description)

/-- Modelled from the spec: the Split amount accessor. -/
def splitAmount (w : World) (h : SplitHandle) :
    List NativeCall × Except WrapperError GncNumeric :=
  withSession w h.sess fun s =>
    match s.book.txns[h.txIdx]? with
    | none => ([], .error .invalidHandle)
    | some t =>
      match t.splits[h.spIdx]? with
      | none => ([], .error .invalidHandle)
      | some sp => ([.derefSplit], .ok sp.amount)

/-- Modelled from the spec: the Split value accessor. -/
def splitValue (w : World) (h : SplitHandle) :
    List NativeCall × Except WrapperError GncNumeric :=
  withSession w h.sess fun s =>
    match s.book.txns[h.txIdx]? with
    | none => ([], .error .invalidHandle)
    | some t =>
      match t.splits[h.spIdx]? with
      | none => ([], .error .invalidHandle)
      | some sp => ([.derefSplit], .ok sp.value)

theorem find_filter_bne (l : List (Nat × SessionNative)) (sid : Nat) :
    (l.filter (fun p => p.1 != sid)).find? (fun p => p.1 == sid) = none := by
  induction l with
  | nil => rfl
  | cons x xs ih =>
    by_cases hx : x.1 = sid
    · simp [List.filter_cons, hx, ih]
    · simp [List.filter_cons, List.find?, hx, ih]

theorem lookupSession_close_self (w : World) (sid : Nat) :
    lookupSession (sessionClose w sid) sid = none := by
  unfold lookupSession sessionClose
  simp [find_filter_bne]

/-- Modelled from the spec: the operations a caller can perform on an owning
Session wrapper during its lifetime — an explicit close, or any other use of
the wrapper.  An early error or panic-equivalent unwinding is a lifetime that
simply ends (possibly without a close); the scoped-resource destructor always
runs at the end of the lifetime. -/
inductive SessOp where
  | close
  | use
  deriving DecidableEq, Repr

/-- Modelled from the spec: the number of native teardown calls performed
over a whole wrapper lifetime, given whether the wrapper currently holds an
open native resource.  An explicit close tears down only when still open and
marks the wrapper closed; the implicit destructor at the end of the lifetime
tears down only when still open (release on every exit path, never twice). -/
def sessionLifeTeardowns : Bool → List SessOp → Nat
  | opened, [] => if opened then 1 else 0
  | opened, .close :: rest => (if opened then 1 else 0) + sessionLifeTeardowns false rest
  | opened, .use :: rest => sessionLifeTeardowns opened rest

theorem sessionLifeTeardowns_closed (ops : List SessOp) :
    sessionLifeTeardowns false ops = 0 := by
  induction ops with
  | nil => rfl
  | cons op rest ih => cases op <;> simp [sessionLifeTeardowns, ih]

/-- Modelled from the spec: a wrapper value around a validated native
handle. -/
structure Wrapped (α : Type) where
  raw : α

/-- Modelled from the spec: constructing a wrapper from a raw native handle —
a null handle (`none`) or a handle failing the entity's valid-handle check is
an `InvalidHandle` failure and yields no wrapper value. -/
def wrapHandle {α : Type} (valid : α → Bool) (raw : Option α) :
    Except WrapperError (Wrapped α) :=
  match raw with
  | none => .error .invalidHandle
  | some a => if valid a then .ok ⟨a⟩ else .error .invalidHandle

/-- Modelled from the spec: the Book loaded from a backing store when a
Session is opened on it. -/
def loadBook (uri : String) : Book :=
  { root := Acct.node ⟨List.replicate 36 0⟩ uri { num := 0, den := 1 } []
  , txns := [] }

/-- Modelled from the spec: opening a Session on a backing store.  A
nonexistent store is a `NativeCallFailed` failure that leaves the world — in
particular the set of open native sessions — unchanged; an existing store
yields a fresh open session. -/
def sessionOpen (w : World) (uri : String) : World × Except WrapperError Nat :=
  if uri ∈ w.stores then
    ({ w with
        sessions := (w.nextSid, { storeUri := uri, book := loadBook uri }) :: w.sessions
      , nextSid := w.nextSid + 1 }
    , .ok w.nextSid)
  else
    (w, .error .nativeCallFailed)

/-- Modelled from the spec: a child iterator over an Account's children — it
records the owning session, the account's path and a cursor index
(children-by-index navigation of §6). -/
structure ChildIter where
  sess : Nat
  path : List Nat
  idx : Nat

/-- A fresh child iterator for an account handle, positioned at the start. -/
def mkChildIter (h : AccountHandle) : ChildIter :=
  { sess := h.sess, path := h.path, idx := 0 }

/-- Restarting an iterator rewinds its cursor to the start. -/
def ChildIter.restart (it : ChildIter) : ChildIter :=
  { sess := it.sess, path := it.path, idx := 0 }

/-- Resolve the account an iterator (or handle) points at in the world. -/
def resolveIn (w : World) (sid : Nat) (path : List Nat) : Option Acct :=
  (lookupSession w sid).bind fun s => s.book.root.resolve path

/-- Modelled from the spec: one step of the lazy child sequence — yields the
identifier of the child at the cursor and the advanced iterator, or `none`
when the sequence is exhausted (or the account is gone). -/
def childIterNext (w : World) (it : ChildIter) : Option (Guid × ChildIter) :=
  (resolveIn w it.sess it.path).bind fun a =>
    match (Acct.children a)[it.idx]? with
    | some c => some (Acct.guid c, { sess := it.sess, path := it.path, idx := it.idx + 1 })
    | none => none

/-- Run the iterator to exhaustion, fuelled. -/
def childIterRunFuel (w : World) : Nat → ChildIter → List Guid
  | 0, _ => []
  | fuel + 1, it =>
    match childIterNext w it with
    | none => []
    | some (g, it2) => g :: childIterRunFuel w fuel it2

/-- A complete iteration: run the child iterator to exhaustion (the child
list is finite, so the number of remaining children is sufficient fuel). -/
def childIterRun (w : World) (it : ChildIter) : List Guid :=
  childIterRunFuel w
    ((resolveIn w it.sess it.path).elim 0 (fun a => (Acct.children a).length)) it

theorem childIterRunFuel_drop (w : World) (sid : Nat) (path : List Nat) (a : Acct)
    (hres : resolveIn w sid path = some a) :
    ∀ (fuel k : Nat), (Acct.children a).length - k ≤ fuel →
      childIterRunFuel w fuel { sess := sid, path := path, idx := k } =
        ((Acct.children a).map Acct.guid).drop k := by
  intro fuel
  induction fuel with
  | zero =>
    intro k hk
    have hlen : (Acct.children a).length ≤ k := by omega
    rw [childIterRunFuel, List.drop_eq_nil_of_le]
    simpa using hlen
  | succ fuel ih =>
    intro k hk
    rw [childIterRunFuel]
    cases hget : (Acct.children a)[k]? with
    | some c =>
      have hklt : k < (Acct.children a).length := (List.getElem?_eq_some_iff.mp hget).1
      have hnext : childIterNext w { sess := sid, path := path, idx := k } =
          some (Acct.guid c, { sess := sid, path := path, idx := k + 1 }) := by
        simp [childIterNext, hres, hget]
      have hdrop :
          ((Acct.children a).map Acct.guid).drop k =
            Acct.guid c :: ((Acct.children a).map Acct.guid).drop (k + 1) := by
        have hkltm : k < ((Acct.children a).map Acct.guid).length := by
          simpa using hklt
        have hmap : ((Acct.children a).map Acct.guid)[k] = Acct.guid c := by
          have hmap? : ((Acct.children a).map Acct.guid)[k]? = some (Acct.guid c) := by
            simp [List.getElem?_map, hget]
          have := List.getElem?_eq_getElem hkltm
          rw [hmap?] at this
          exact (Option.some_inj.mp this).symm
        rw [List.drop_eq_getElem_cons hkltm, hmap]
      rw [hnext, hdrop]
      exact congrArg (fun l => Acct.guid c :: l) (ih (k + 1) (by omega))
    | none =>
      have hnext : childIterNext w { sess := sid, path := path, idx := k } = none := by
        simp [childIterNext, hres, hget]
      have hle : (Acct.children a).length ≤ k := by
        simpa using List.getElem?_eq_none_iff.mp hget
      rw [hnext, List.drop_eq_nil_of_le (by simpa using hle)]

/-- Modelled from the spec: the native entities of the §3 data model. -/
inductive Entity where
  | identifier
  | numeric
  | date
  | book
  | account
  | transaction
  | split
  | session
  | priceDb
  deriving DecidableEq, Repr

/-- Modelled from the spec: one exported safe type of the binding boundary —
which entity it wraps, whether its constructor validates, whether its
accessors check liveness, whether it is the owning side, and the native
calls its destructor performs. -/
structure SafeType where
  entity : Entity
  validatingConstructor : Bool
  livenessAccessors : Bool
  owning : Bool
  dropTrace : List NativeCall
  deriving DecidableEq, Repr

/-- Modelled from the spec: the exported surface of the binding boundary
(§6) — one safe type per native entity of the §3 data model.  Session and
the Book it manages are the owning side whose destructor performs the native
teardown; Account, Transaction, Split and Price/PriceDB are non-owning views;
Identifier, Numeric and Date are plain value types. -/
def exportedSurface : List SafeType :=
  [ { entity := .identifier, validatingConstructor := true, livenessAccessors := true
    , owning := false, dropTrace := [] }
  , { entity := .numeric, validatingConstructor := true, livenessAccessors := true
    , owning := false, dropTrace := [] }
  , { entity := .date, validatingConstructor := true, livenessAccessors := true
    , owning := false, dropTrace := [] }
  , { entity := .book, validatingConstructor := true, livenessAccessors := true
    , owning := true, dropTrace := [.sessionTeardown] }
  , { entity := .account, validatingConstructor := true, livenessAccessors := true
    , owning := false, dropTrace := [] }
  , { entity := .transaction, validatingConstructor := true, livenessAccessors := true
    , owning := false, dropTrace := [] }
  , { entity := .split, validatingConstructor := true, livenessAccessors := true
    , owning := false, dropTrace := [] }
  , { entity := .session, validatingConstructor := true, livenessAccessors := true
    , owning := true, dropTrace := [.sessionTeardown] }
  , { entity := .priceDb, validatingConstructor := true, livenessAccessors := true
    , owning := false, dropTrace := [] } ]

/-- The lines of `src/wrapper.h`, embedded verbatim from the repository. -/
def wrapperHLines : List String :=
  [ "/* wrapper.h - Headers for gnucash-sys FFI bindings */"
  , ""
  , "/* Core types */"
  , "#include \"guid.h\""
  , "#include \"gnc-numeric.h\""
  , "#include \"gnc-date.h\""
  , ""
  , "/* Entity types */"
  , "#include \"qofbook.h\""
  , "#include \"Account.h\""
  , "#include \"Transaction.h\""
  , "#include \"Split.h\"" ]

/-- A line of `wrapper.h` is a pure declaration line: blank, a C comment, or
an include directive — never executable or algorithmic code. -/
def isDeclLine (l : String) : Bool :=
  match l.data with
  | [] => true
  | '/' :: '*' :: _ => true
  | '#' :: 'i' :: 'n' :: 'c' :: 'l' :: 'u' :: 'd' :: 'e' :: _ => true
  | _ => false

/-! ## Concrete fixtures used by the witnesses -/

/-- An all-zero identifier. -/
def guid0 : Guid := ⟨List.replicate 36 0⟩

/-- An all-one identifier. -/
def guidA : Guid := ⟨List.replicate 36 1⟩

/-- An all-two identifier. -/
def guidB : Guid := ⟨List.replicate 36 2⟩

/-- A concrete child account. -/
def acctA : Acct := .node guidA "Assets" { num := 1, den := 1 } []

/-- Another concrete child account. -/
def acctB : Acct := .node guidB "Equity" { num := 2, den := 1 } []

/-- A concrete root account with two children. -/
def acct0 : Acct := .node guid0 "Root" { num := 0, den := 1 } [acctA, acctB]

/-- A concrete split. -/
def split0 : NativeSplit :=
  { guid := guidA, amount := { num := 1, den := 100 }, value := { num := 1, den := 100 } }

/-- A concrete transaction holding one split. -/
def txn0 : NativeTxn := { guid := guidB, datePosted := 0, description := "t", splits := [split0] }

/-- A concrete book. -/
def book0 : Book := { root := acct0, txns := [txn0] }

/-- A concrete world with one open session (id 0) and one backing store. -/
def world0 : World :=
  { sessions := [(0, { storeUri := "store", book := book0 })], stores := ["store"], nextSid := 1 }

/-- A concrete world with no open session and one backing store. -/
def world1 : World := { sessions := [], stores := ["store"], nextSid := 0 }

/-- A well-formed 36-character canonical identifier text. -/
def goodGuidText : String := "00112233445566778899aabbccddeeff0011"

/-- A 36-character text containing non-hex characters. -/
def badGuidText : String := "zz112233445566778899aabbccddeeff0011"

/-! ## The claims -/

/-- C1: after a Session has been closed, every accessor call (name, balance,
date, description, amount, value) on any Account, Transaction or Split
handle derived from that Session's Book fails with `StaleHandle` and
performs no dereference of the underlying native object (empty native-call
trace). -/
theorem stale_after_session_close
    (w : World) (sid : Nat) (ha : AccountHandle) (ht : TxnHandle) (hs : SplitHandle)
    (hA : ha.sess = sid) (hT : ht.sess = sid) (hS : hs.sess = sid) :
    accountName (sessionClose w sid) ha = ([], .error .staleHandle) ∧
    accountBalance (sessionClose w sid) ha = ([], .error .staleHandle) ∧
    txnDatePosted (sessionClose w sid) ht = ([], .error .staleHandle) ∧
    txnDescription (sessionClose w sid) ht = ([], .error .staleHandle) ∧
    splitAmount (sessionClose w sid) hs = ([], .error .staleHandle) ∧
    splitValue (sessionClose w sid) hs = ([], .error .staleHandle) := by
  refine ⟨?_, ?_, ?_, ?_, ?_, ?_⟩ <;>
    simp [accountName, accountBalance, txnDatePosted, txnDescription, splitAmount,
      splitValue, withSession, hA, hT, hS, lookupSession_close_self]

/-- Witness for C1 at a concrete closed session. -/
theorem stale_after_session_close_witness :
    accountName (sessionClose world0 0) ⟨0, []⟩ = ([], .error .staleHandle) ∧
    accountBalance (sessionClose world0 0) ⟨0, []⟩ = ([], .error .staleHandle) ∧
    txnDatePosted (sessionClose world0 0) ⟨0, 0⟩ = ([], .error .staleHandle) ∧
    txnDescription (sessionClose world0 0) ⟨0, 0⟩ = ([], .error .staleHandle) ∧
    splitAmount (sessionClose world0 0) ⟨0, 0, 0⟩ = ([], .error .staleHandle) ∧
    splitValue (sessionClose world0 0) ⟨0, 0, 0⟩ = ([], .error .staleHandle) :=
  stale_after_session_close world0 0 ⟨0, []⟩ ⟨0, 0⟩ ⟨0, 0, 0⟩ rfl rfl rfl

/-- C2: over any whole lifetime of an owning Session wrapper — any sequence
of close/use operations followed by the scoped-resource destructor — the
native teardown is performed exactly once, on every exit path (normal close,
early error, unwinding) and never a second time. -/
theorem session_teardown_exactly_once (ops : List SessOp) :
    sessionLifeTeardowns true ops = 1 := by
  induction ops with
  | nil => rfl
  | cons op rest ih =>
    cases op
    · simp [sessionLifeTeardowns, sessionLifeTeardowns_closed]
    · simpa [sessionLifeTeardowns] using ih

/-- C3: for every rational pair (n, d) with d ≠ 0, marshaling from the
native numerator/denominator representation to the host representation and
back yields exactly (n, d) — no normalization, rounding or precision loss. -/
theorem numeric_marshal_roundtrip (n : Int) (d : Nat) (h : d ≠ 0) :
    numericToNative (numericFromNative (n, d)) = (n, d) ∧
    (numericFromNative (n, d)).num = n ∧ (numericFromNative (n, d)).den = d :=
  ⟨rfl, rfl, rfl⟩

/-- Witness for C3 at the non-reduced pair (2, 4). -/
theorem numeric_marshal_roundtrip_witness :
    numericToNative (numericFromNative (2, 4)) = ((2 : Int), (4 : Nat)) ∧
    (numericFromNative ((2 : Int), (4 : Nat))).num = 2 ∧
    (numericFromNative ((2 : Int), (4 : Nat))).den = 4 :=
  numeric_marshal_roundtrip 2 4 (by decide)

/-- C4: constructing a Numeric with denominator 0 fails with
`InvalidNumeric`, does not crash (the constructor is a total function), and
performs no native call before returning the error (empty trace). -/
theorem numeric_zero_denominator_invalid (n : Int) :
    numericNew n 0 = ([], .error .invalidNumeric) := by
  simp [numericNew]

/-- C5: parsing a 36-character textual identifier fails with
`MalformedIdentifier` when it has wrong length or contains a character
outside the canonical hex alphabet; a well-formed text parses successfully
and stringifying the parsed identifier yields the original text. -/
theorem guid_parse_stringify_roundtrip (s : String) :
    ((s.data.length ≠ 36 ∨ ∃ c ∈ s.data, isCanonHexDigit c = false) →
      parseGuid s = .error .malformedIdentifier) ∧
    (s.data.length = 36 → (∀ c ∈ s.data, isCanonHexDigit c = true) →
      ∃ g, parseGuid s = .ok g ∧ guidToString g = s) := by
  constructor
  · intro hbad
    have hcond : (decide (s.data.length = 36) && s.data.all isCanonHexDigit) = false := by
      rcases hbad with hlen | ⟨c, hc, hcf⟩
      · have hd : decide (s.data.length = 36) = false := decide_eq_false hlen
        rw [hd, Bool.false_and]
      · have hall : s.data.all isCanonHexDigit = false :=
          List.all_eq_false.mpr ⟨c, hc, by simp [hcf]⟩
        simp [hall]
    simp only [parseGuid, hcond, Bool.false_eq_true, if_false]
  · intro hlen hall
    have hcond : (decide (s.data.length = 36) && s.data.all isCanonHexDigit) = true := by
      simp [hlen, List.all_eq_true]
      exact hall
    refine ⟨⟨s.data.map hexDigitVal⟩, ?_, ?_⟩
    · simp only [parseGuid, hcond, if_true]
    · show String.mk ((s.data.map hexDigitVal).map hexDigitChar) = s
      rw [List.map_map]
      have hpt : ∀ c ∈ s.data, (hexDigitChar ∘ hexDigitVal) c = id c := fun c hc =>
        hexDigitChar_hexDigitVal (hall c hc)
      rw [List.map_congr_left hpt, List.map_id]

/-- Witness for C5: a malformed text is rejected and a well-formed text
round-trips. -/
theorem guid_parse_stringify_roundtrip_witness :
    parseGuid badGuidText = .error .malformedIdentifier ∧
    ∃ g, parseGuid goodGuidText = .ok g ∧ guidToString g = goodGuidText :=
  ⟨(guid_parse_stringify_roundtrip badGuidText).1
      (Or.inr ⟨'z', by decide, by decide⟩),
    (guid_parse_stringify_roundtrip goodGuidText).2 (by decide) (by decide)⟩

/-- C6: for every entity type (any validity check over any native handle
type), constructing a wrapper from a null or invalid native handle fails
with `InvalidHandle` and never produces a usable wrapper value — any wrapper
value that is produced wraps a non-null handle passing the validity check. -/
theorem wrap_invalid_handle_fails {α : Type} (valid : α → Bool) (raw : Option α) :
    ((raw = none ∨ ∀ a, raw = some a → valid a = false) →
      wrapHandle valid raw = .error .invalidHandle) ∧
    (∀ wr, wrapHandle valid raw = .ok wr → raw = some wr.raw ∧ valid wr.raw = true) := by
  constructor
  · rintro (hnone | hinv)
    · rw [hnone]; rfl
    · cases raw with
      | none => rfl
      | some a => simp [wrapHandle, hinv a rfl]
  · intro wr hok
    cases raw with
    | none => exact absurd hok (by simp [wrapHandle])
    | some a =>
      by_cases hv : valid a
      · have hok2 : (Except.ok ⟨a⟩ : Except WrapperError (Wrapped α)) = Except.ok wr := by
          simpa [wrapHandle, hv] using hok
        have hwr : wr = ⟨a⟩ := (Except.ok.inj hok2).symm
        subst hwr
        exact ⟨rfl, hv⟩
      · exact absurd hok (by simp [wrapHandle, hv])

/-- Witness for C6: a null handle is rejected and a valid handle wraps. -/
theorem wrap_invalid_handle_fails_witness :
    wrapHandle (fun _ : Nat => true) none = .error .invalidHandle ∧
    (some 5 = some (Wrapped.mk 5).raw ∧ (fun _ : Nat => true) (Wrapped.mk 5).raw = true) :=
  ⟨(wrap_invalid_handle_fails (fun _ : Nat => true) none).1 (Or.inl rfl),
    (wrap_invalid_handle_fails (fun _ : Nat => true) (some 5)).2 ⟨5⟩ rfl⟩

/-- C7: opening a Session on a nonexistent backing store fails with
`NativeCallFailed`, leaves the world — in particular the set of open native
sessions — unchanged, and a subsequent open on an existing store still
succeeds. -/
theorem session_open_missing_store (w : World) (uri uri2 : String)
    (h : uri ∉ w.stores) (h2 : uri2 ∈ w.stores) :
    sessionOpen w uri = (w, .error .nativeCallFailed) ∧
    (sessionOpen w uri).1.sessions = w.sessions ∧
    (sessionOpen (sessionOpen w uri).1 uri2).2 = .ok w.nextSid := by
  have h1 : sessionOpen w uri = (w, .error .nativeCallFailed) := by
    simp [sessionOpen, h]
  refine ⟨h1, by rw [h1], ?_⟩
  rw [h1]
  simp [sessionOpen, h2]

/-- Witness for C7 at a concrete world with one store. -/
theorem session_open_missing_store_witness :
    sessionOpen world1 "missing" = (world1, .error .nativeCallFailed) ∧
    (sessionOpen world1 "missing").1.sessions = world1.sessions ∧
    (sessionOpen (sessionOpen world1 "missing").1 "store").2 = .ok world1.nextSid :=
  session_open_missing_store world1 "missing" "store" (by decide) (by decide)

/-- C8: a complete iteration over an Account's children is the finite,
deterministic sequence of the children's identifiers in order, and
restarting the iterator (from any cursor position, with no intervening
mutation of the world) yields the same ordered sequence again. -/
theorem child_iteration_restartable (w : World) (h : AccountHandle) (a : Acct) (k : Nat)
    (hres : resolveIn w h.sess h.path = some a) :
    childIterRun w (mkChildIter h) = (Acct.children a).map Acct.guid ∧
    childIterRun w (ChildIter.restart { sess := h.sess, path := h.path, idx := k }) =
      childIterRun w (mkChildIter h) := by
  have hrun : childIterRun w (mkChildIter h) = (Acct.children a).map Acct.guid := by
    show childIterRunFuel w
        ((resolveIn w h.sess h.path).elim 0 (fun a => (Acct.children a).length))
        { sess := h.sess, path := h.path, idx := 0 } = _
    rw [hres]
    simpa using
      childIterRunFuel_drop w h.sess h.path a hres ((Acct.children a).length) 0 (by omega)
  exact ⟨hrun, rfl⟩

/-- Witness for C8 at a concrete account with two children. -/
theorem child_iteration_restartable_witness :
    childIterRun world0 (mkChildIter ⟨0, []⟩) = (Acct.children acct0).map Acct.guid ∧
    childIterRun world0 (ChildIter.restart { sess := 0, path := [], idx := 3 }) =
      childIterRun world0 (mkChildIter ⟨0, []⟩) :=
  child_iteration_restartable world0 ⟨0, []⟩ acct0 3 rfl

/-- C9: the binding boundary's exported surface provides exactly one safe
type for each native entity of the data model, and each entry has a
validating constructor, liveness-checking accessors, and a destructor whose
native-call trace releases exactly what it owns (teardown for the owning
Session/Book, nothing for views and value types). -/
theorem exported_surface_one_safe_type (e : Entity) :
    (exportedSurface.filter (fun st => st.entity == e)).length = 1 ∧
    ∀ st ∈ exportedSurface,
      st.validatingConstructor = true ∧ st.livenessAccessors = true ∧
      st.dropTrace = (if st.owning then [NativeCall.sessionTeardown] else []) := by
  cases e <;> exact ⟨by decide, by decide⟩

/-- C10 counterexample: the repository's source file `wrapper.h` does not
consist of 61 lines — it has 12 lines. -/
theorem wrapper_source_not_61_lines :
    ¬ (wrapperHLines.length = 61 ∧ wrapperHLines.all isDeclLine = true) :=
  fun h => absurd h.1 (by decide)

/-- C10 (amended): the repository's source file `wrapper.h` consists of 12
lines of pure declarations (blank lines, comments and include directives)
and contains no algorithmic logic of its own. -/
theorem wrapper_source_pure_declarations :
    wrapperHLines.length = 12 ∧ wrapperHLines.all isDeclLine = true := by
  exact ⟨rfl, by decide⟩

end GnucashSys
